import Mathlib

/-!
# Verification of the fragrance-rater preference-and-recommendation engine

Shallow embedding of `src/fragrance_rater/services/recommendation_service.py`
and `src/fragrance_rater/services/llm_service.py`, together with proofs about
the affinity aggregator, the scorer (veto rule, component means, logistic
normalization), the ranker (filtering, sorting, truncation) and the
explanation adapter (fallback behaviour and cache invalidation).

Python floats are embedded as exact rationals `ℚ`; the only transcendental
step, the logistic normalization `1 / (1 + exp (-raw))`, is embedded over `ℝ`
with `Real.exp`.  Python dictionaries (`defaultdict(float)`) are embedded as
insertion-ordered association lists, so that both lookups and key presence
(which Python dict equality observes) are faithfully represented.
-/

set_option maxRecDepth 100000

namespace FragranceRater

/-! ## Association-list embedding of Python dict / defaultdict(float) -/

/-- Insertion-ordered association map from strings to rationals, embedding a
Python `defaultdict(float)` (and the plain `dict` it is converted to). -/
abbrev FMap := List (String × ℚ)

/-- `m.get(k, 0)` — lookup with default `0`, as the services read affinities. -/
def FMap.getD (m : FMap) (k : String) : ℚ :=
  match m.find? (fun p => p.1 = k) with
  | some p => p.2
  | none => 0

/-- `k in m` as an `Option`-valued lookup: `some v` when the key is present.
Python dict equality compares key sets and values, i.e. this function. -/
def FMap.lookup? (m : FMap) (k : String) : Option ℚ :=
  (m.find? (fun p => p.1 = k)).map (fun p => p.2)

/-- `m[k] += v` on a `defaultdict(float)`: update the value in place when the
key is present, otherwise append the key with value `0 + v = v`. -/
def FMap.addTo (m : FMap) (k : String) (v : ℚ) : FMap :=
  match m with
  | [] => [(k, v)]
  | (k', v') :: rest =>
      if k' = k then (k', v' + v) :: rest else (k', v') :: FMap.addTo rest k v

/-- Python dict equality: the same keys are present and map to the same
values (insertion order is not observed by `==`). -/
def FMap.dictEq (a b : FMap) : Prop :=
  ∀ k, a.lookup? k = b.lookup? k

/-- String-valued association map (for the `note_names` id → name dict). -/
abbrev SMap := List (String × String)

/-- `d[k] = v` on a plain dict: overwrite when present, else append. -/
def SMap.setTo (m : SMap) (k v : String) : SMap :=
  match m with
  | [] => [(k, v)]
  | (k', v') :: rest =>
      if k' = k then (k', v) :: rest else (k', v') :: SMap.setTo rest k v

/-- `m.get(k, d)` on the string map. -/
def SMap.getD (m : SMap) (k d : String) : String :=
  match m.find? (fun p => p.1 = k) with
  | some p => p.2
  | none => d

/-! ## Data model (`models/fragrance.py`, `models/evaluation.py`) -/

/-- `Note` entity: an individual scent component. -/
structure Note where
  id : String
  name : String
  deriving Repr, DecidableEq

/-- `FragranceNote` junction row: a positioned note of a fragrance.  The
`position` (top / heart / base) is carried but never used by the engine. -/
structure FragranceNote where
  note : Note
  position : String
  deriving Repr, DecidableEq

/-- `FragranceAccord`: an accord type with intensity on a fragrance. -/
structure FragranceAccord where
  accord_type : String
  intensity : ℚ
  deriving Repr, DecidableEq

/-- `Fragrance` entity with its eagerly loaded notes and accords, in the
order the relationship lists deliver them (no `order_by` is declared). -/
structure Fragrance where
  id : String
  name : String
  brand : String
  primary_family : String
  subfamily : String
  notes : List FragranceNote
  accords : List FragranceAccord
  deriving Repr, DecidableEq

/-- `Evaluation` row joined with its fragrance (the service always loads the
fragrance relationship eagerly).  `rating` is the 1–5 star rating. -/
structure Evaluation where
  reviewer_id : String
  rating : ℕ
  fragrance : Fragrance
  deriving Repr, DecidableEq

/-- The read-only snapshot the service queries: all evaluations and the full
fragrance catalog, each in database iteration order. -/
structure Database where
  evaluations : List Evaluation
  fragrances : List Fragrance
  deriving Repr

/-! ## Constants (`recommendation_service.py` lines 26–41) -/

/-- `RATING_WEIGHTS.get(rating, 0.0)`: the 1–5 star → signed weight table,
with unknown ratings mapping to `0.0`. -/
def RATING_WEIGHTS (rating : ℕ) : ℚ :=
  match rating with
  | 1 => -2
  | 2 => -1
  | 3 => 0
  | 4 => 1
  | 5 => 2
  | _ => 0

/-- `COMPONENT_WEIGHTS` dictionary. -/
def COMPONENT_WEIGHTS (component : String) : ℚ :=
  match component with
  | "notes" => 40 / 100
  | "accords" => 30 / 100
  | "family" => 20 / 100
  | "subfamily" => 10 / 100
  | _ => 0

/-- `VETO_THRESHOLD = -3.0`. -/
def VETO_THRESHOLD : ℚ := -3

/-- `MIN_EVALUATIONS = 3`. -/
def MIN_EVALUATIONS : ℕ := 3

/-! ## Stable sort embedding Python `list.sort` / `sorted`

Python's sort is stable; a stable sort is a unique function of the boolean
"may stay in front of" relation, so stable insertion sort embeds it. -/

/-- Insert `x` in front of the first element `y` with `le x y`. -/
def pyInsert (le : α → α → Bool) (x : α) : List α → List α
  | [] => [x]
  | y :: ys => if le x y then x :: y :: ys else y :: pyInsert le x ys

/-- Stable sort: an element moves in front of another exactly when the
relation strictly demands it, which is Python `list.sort` semantics for the
total preorder `le`. -/
def pySort (le : α → α → Bool) : List α → List α
  | [] => []
  | x :: xs => pyInsert le x (pySort le xs)

/-! ## Affinity aggregator (`build_preference_profile`, lines 102–175) -/

/-- `UserProfile` dataclass. -/
structure UserProfile where
  reviewer_id : String
  note_affinities : FMap := []
  accord_affinities : FMap := []
  family_affinities : FMap := []
  evaluation_count : ℕ := 0
  top_liked_notes : List (String × ℚ) := []
  top_disliked_notes : List (String × ℚ) := []
  deriving Repr

/-- Mutable state of the aggregation loop: the three affinity dicts and the
note id → name dict. -/
structure AggSt where
  note_affinities : FMap
  note_names : SMap
  accord_affinities : FMap
  family_affinities : FMap

/-- Body of `for fn in fragrance.notes`: accumulate the note affinity and
record the note's name. -/
def noteStep (weight : ℚ) (st : FMap × SMap) (fn : FragranceNote) : FMap × SMap :=
  (st.1.addTo fn.note.id weight, st.2.setTo fn.note.id fn.note.name)

/-- Body of `for evaluation in evaluations`: one evaluation's contribution to
the aggregation state. -/
def processEval (st : AggSt) (evaluation : Evaluation) : AggSt :=
  let weight := RATING_WEIGHTS evaluation.rating
  let fragrance := evaluation.fragrance
  let notesSt := fragrance.notes.foldl (noteStep weight) (st.note_affinities, st.note_names)
  let accordAff := fragrance.accords.foldl
    (fun m accord => m.addTo accord.accord_type (weight * accord.intensity))
    st.accord_affinities
  let famAff := (st.family_affinities.addTo fragrance.primary_family weight).addTo
    fragrance.subfamily (weight * (1 / 2))
  ⟨notesSt.1, notesSt.2, accordAff, famAff⟩

/-- The evaluations the `SELECT ... WHERE reviewer_id = :rid` returns. -/
def reviewerEvals (db : Database) (reviewer_id : String) : List Evaluation :=
  db.evaluations.filter (fun e => e.reviewer_id = reviewer_id)

/-- `build_preference_profile`: aggregate the reviewer's evaluations into a
`UserProfile`, including the top-liked / top-disliked display lists. -/
def build_preference_profile (db : Database) (reviewer_id : String) : UserProfile :=
  let evaluations := reviewerEvals db reviewer_id
  let st := evaluations.foldl processEval ⟨[], [], [], []⟩
  let sorted_notes := pySort (fun a b => decide (b.2 ≤ a.2))
    (st.note_affinities.map (fun p => (st.note_names.getD p.1 p.1, p.2)))
  let top_liked := (sorted_notes.filter (fun p => 0 < p.2)).take 5
  let negatives := sorted_notes.filter (fun p => p.2 < 0)
  let top_disliked := negatives.drop (negatives.length - 5)
  { reviewer_id := reviewer_id
    note_affinities := st.note_affinities
    accord_affinities := st.accord_affinities
    family_affinities := st.family_affinities
    evaluation_count := evaluations.length
    top_liked_notes := top_liked
    top_disliked_notes := top_disliked.reverse }

/-! ## Scorer (`calculate_match_score`, lines 177–247)

The Python dataclass stores `score : float` and `score_percent : int`
eagerly; the embedding stores the exact rational `raw` score and derives the
real-valued `score` and `score_percent` as functions, since `ℝ` has no
executable representation. -/

/-- `MatchResult` core: veto verdict, components dict and the raw score.  In
the veto branch the code leaves `components` empty and computes no raw
score (the stored `raw` field is `0` there and unused). -/
structure MatchResult where
  vetoed : Bool
  veto_note : Option String
  components : FMap
  raw : ℚ
  deriving Repr, DecidableEq

/-- The logistic normalization `1 / (1 + exp (-x))` of the scorer. -/
noncomputable def logistic (x : ℝ) : ℝ := 1 / (1 + Real.exp (-x))

/-- Python `int(x)`: truncation toward zero. -/
noncomputable def pyInt (x : ℝ) : ℤ :=
  if 0 ≤ x then ⌊x⌋ else -⌊-x⌋

/-- The `score` field of the Python `MatchResult`: the fixed `0.1` floor when
vetoed, otherwise the logistic of the raw score. -/
noncomputable def MatchResult.score (m : MatchResult) : ℝ :=
  if m.vetoed then 0.1 else logistic m.raw

/-- The `score_percent` field: `10` when vetoed, else `int(normalized * 100)`. -/
noncomputable def MatchResult.score_percent (m : MatchResult) : ℤ :=
  if m.vetoed then 10 else pyInt (logistic m.raw * 100)

/-- The veto test on one positioned note. -/
def vetoHit (profile : UserProfile) (fn : FragranceNote) : Bool :=
  decide (profile.note_affinities.getD fn.note.id < VETO_THRESHOLD)

/-- `calculate_match_score`: veto scan in the stored note order, then the
component means, the weighted raw score and (derived) normalization. -/
def calculate_match_score (profile : UserProfile) (fragrance : Fragrance) :
    MatchResult :=
  match fragrance.notes.find? (vetoHit profile) with
  | some fn =>
      { vetoed := true, veto_note := some fn.note.name, components := [], raw := 0 }
  | none =>
      let note_scores := fragrance.notes.map
        (fun fn => profile.note_affinities.getD fn.note.id)
      let note_score := note_scores.sum / (max note_scores.length 1 : ℕ)
      let accord_scores := fragrance.accords.map
        (fun accord => profile.accord_affinities.getD accord.accord_type * accord.intensity)
      let accord_score := accord_scores.sum / (max accord_scores.length 1 : ℕ)
      let family_score := profile.family_affinities.getD fragrance.primary_family
      let subfamily_score := profile.family_affinities.getD fragrance.subfamily
      let raw_score := COMPONENT_WEIGHTS "notes" * note_score
        + COMPONENT_WEIGHTS "accords" * accord_score
        + COMPONENT_WEIGHTS "family" * family_score
        + COMPONENT_WEIGHTS "subfamily" * subfamily_score
      { vetoed := false
        veto_note := none
        components := [("notes", note_score), ("accords", accord_score),
          ("family", family_score), ("subfamily", subfamily_score),
          ("raw", raw_score)]
        raw := raw_score }

/-! ## Ranker (`get_recommendations`, lines 249–317) -/

/-- `Recommendation` dataclass core (the float `match_score` and int
`match_percent` are derived from `vetoed` and `raw`, as in `MatchResult`). -/
structure Recommendation where
  fragrance_id : String
  fragrance_name : String
  fragrance_brand : String
  vetoed : Bool
  veto_reason : Option String
  components : FMap
  raw : ℚ
  deriving Repr, DecidableEq

/-- The `match_score` field of the Python dataclass. -/
noncomputable def Recommendation.match_score (r : Recommendation) : ℝ :=
  if r.vetoed then 0.1 else logistic r.raw

/-- The `match_percent` field of the Python dataclass. -/
noncomputable def Recommendation.match_percent (r : Recommendation) : ℤ :=
  if r.vetoed then 10 else pyInt (logistic r.raw * 100)

/-- `InsufficientDataError(msg)`. -/
structure InsufficientDataError where
  msg : String
  deriving Repr, DecidableEq

/-- The rational proxy for the sort key's second component: all vetoed items
share the constant score `0.1`, and among non-vetoed items the logistic is
strictly monotone in `raw`, so comparing this proxy lexicographically after
the vetoed flag agrees with comparing the stored float scores. -/
def scoreKeyQ (r : Recommendation) : ℚ :=
  if r.vetoed then 0 else r.raw

/-- `sort(key = lambda r: (not r.vetoed, r.match_score), reverse = True)`:
`a` may stay in front of `b` iff `(not a.vetoed, a.match_score)` is
lexicographically ≥ `(not b.vetoed, b.match_score)`. -/
def recLe (a b : Recommendation) : Bool :=
  (!a.vetoed && b.vetoed) || ((a.vetoed == b.vetoed) && decide (scoreKeyQ b ≤ scoreKeyQ a))

/-- The fragrance ids of the reviewer's evaluations (`rated_ids`). -/
def ratedIds (db : Database) (reviewer_id : String) : List String :=
  (reviewerEvals db reviewer_id).map (fun e => e.fragrance.id)

/-- One scored candidate, with the veto reason string of the code. -/
def mkRecommendation (profile : UserProfile) (fragrance : Fragrance) :
    Recommendation :=
  let match_result := calculate_match_score profile fragrance
  { fragrance_id := fragrance.id
    fragrance_name := fragrance.name
    fragrance_brand := fragrance.brand
    vetoed := match_result.vetoed
    veto_reason :=
      if match_result.vetoed then
        let veto_name := (match_result.veto_note).getD ""
        some s!"Contains {veto_name} which you dislike"
      else none
    components := match_result.components
    raw := match_result.raw }

/-- The scored candidate list before sorting and truncation. -/
def candidateRecommendations (db : Database) (reviewer_id : String)
    (exclude_rated : Bool) : List Recommendation :=
  let profile := build_preference_profile db reviewer_id
  let candidates :=
    if exclude_rated then
      db.fragrances.filter (fun f => ¬ (ratedIds db reviewer_id).contains f.id)
    else db.fragrances
  candidates.map (mkRecommendation profile)

/-- `get_recommendations`: profile, minimum-evaluations gate, candidate
filtering, scoring, stable sort, truncation to `limit`. -/
def get_recommendations (db : Database) (reviewer_id : String) (limit : ℕ)
    (exclude_rated : Bool) : Except InsufficientDataError (List Recommendation) :=
  let profile := build_preference_profile db reviewer_id
  if profile.evaluation_count < MIN_EVALUATIONS then
    .error ⟨s!"Need at least {MIN_EVALUATIONS} evaluations for recommendations"⟩
  else
    .ok ((pySort recLe (candidateRecommendations db reviewer_id exclude_rated)).take limit)

/-! ## MD5 (`hashlib.md5(...).hexdigest()` used by `_cache_key`)

The reference MD5 algorithm over byte lists, with 32-bit machine arithmetic
embedded as `ℕ` reduced modulo `2^32`. -/

/-- Reduce to a 32-bit word. -/
def w32 (x : ℕ) : ℕ := x % 4294967296

/-- 32-bit left rotation (the operand is a 32-bit word). -/
def rotl32 (x c : ℕ) : ℕ := w32 ((x <<< c) ||| (x >>> (32 - c)))

/-- 32-bit bitwise complement. -/
def not32 (x : ℕ) : ℕ := x ^^^ 4294967295

/-- MD5 per-round shift amounts. -/
def md5S : List ℕ :=
  [7, 12, 17, 22, 7, 12, 17, 22, 7, 12, 17, 22, 7, 12, 17, 22,
   5, 9, 14, 20, 5, 9, 14, 20, 5, 9, 14, 20, 5, 9, 14, 20,
   4, 11, 16, 23, 4, 11, 16, 23, 4, 11, 16, 23, 4, 11, 16, 23,
   6, 10, 15, 21, 6, 10, 15, 21, 6, 10, 15, 21, 6, 10, 15, 21]

/-- MD5 sine-derived constant table. -/
def md5K : List ℕ :=
  [0xd76aa478, 0xe8c7b756, 0x242070db, 0xc1bdceee,
   0xf57c0faf, 0x4787c62a, 0xa8304613, 0xfd469501,
   0x698098d8, 0x8b44f7af, 0xffff5bb1, 0x895cd7be,
   0x6b901122, 0xfd987193, 0xa679438e, 0x49b40821,
   0xf61e2562, 0xc040b340, 0x265e5a51, 0xe9b6c7aa,
   0xd62f105d, 0x02441453, 0xd8a1e681, 0xe7d3fbc8,
   0x21e1cde6, 0xc33707d6, 0xf4d50d87, 0x455a14ed,
   0xa9e3e905, 0xfcefa3f8, 0x676f02d9, 0x8d2a4c8a,
   0xfffa3942, 0x8771f681, 0x6d9d6122, 0xfde5380c,
   0xa4beea44, 0x4bdecfa9, 0xf6bb4b60, 0xbebfbc70,
   0x289b7ec6, 0xeaa127fa, 0xd4ef3085, 0x04881d05,
   0xd9d4d039, 0xe6db99e5, 0x1fa27cf8, 0xc4ac5665,
   0xf4292244, 0x432aff97, 0xab9423a7, 0xfc93a039,
   0x655b59c3, 0x8f0ccc92, 0xffeff47d, 0x85845dd1,
   0x6fa87e4f, 0xfe2ce6e0, 0xa3014314, 0x4e0811a1,
   0xf7537e82, 0xbd3af235, 0x2ad7d2bb, 0xeb86d391]

/-- Group a byte list into little-endian 32-bit words. -/
def toWords32 : List ℕ → List ℕ
  | b0 :: b1 :: b2 :: b3 :: rest =>
      (b0 + 256 * (b1 + 256 * (b2 + 256 * b3))) :: toWords32 rest
  | _ => []

/-- One MD5 round on the state `(a, b, c, d)` with message words `m`. -/
def md5Step (m : List ℕ) (st : ℕ × ℕ × ℕ × ℕ) (i : ℕ) : ℕ × ℕ × ℕ × ℕ :=
  let (a, b, c, d) := st
  let fg : ℕ × ℕ :=
    if i < 16 then ((b &&& c) ||| (not32 b &&& d), i)
    else if i < 32 then ((d &&& b) ||| (not32 d &&& c), (5 * i + 1) % 16)
    else if i < 48 then (b ^^^ c ^^^ d, (3 * i + 5) % 16)
    else (c ^^^ (b ||| not32 d), (7 * i) % 16)
  let f := w32 (fg.1 + a + md5K.getD i 0 + m.getD fg.2 0)
  (d, w32 (b + rotl32 f (md5S.getD i 0)), b, c)

/-- Process one padded 64-byte chunk. -/
def md5Chunk (st : ℕ × ℕ × ℕ × ℕ) (chunk : List ℕ) : ℕ × ℕ × ℕ × ℕ :=
  let m := toWords32 chunk
  let r := (List.range 64).foldl (md5Step m) st
  (w32 (st.1 + r.1), w32 (st.2.1 + r.2.1),
   w32 (st.2.2.1 + r.2.2.1), w32 (st.2.2.2 + r.2.2.2))

/-- MD5 padding: `0x80`, zeros to 56 mod 64, then the bit length in 8
little-endian bytes. -/
def md5Pad (msg : List ℕ) : List ℕ :=
  let z := (119 - msg.length % 64) % 64
  msg ++ [0x80] ++ List.replicate z 0
    ++ (List.range 8).map (fun i => (8 * msg.length >>> (8 * i)) % 256)

/-- Split a byte list into 64-byte chunks; the fuel bounds the number of
chunks by the length of the list so the recursion is structural. -/
def chunks64Go : ℕ → List ℕ → List (List ℕ)
  | 0, _ => []
  | _, [] => []
  | fuel + 1, l => l.take 64 :: chunks64Go fuel (l.drop 64)

/-- Split a (padded) byte list into 64-byte chunks. -/
def chunks64 (l : List ℕ) : List (List ℕ) := chunks64Go l.length l

/-- MD5 digest of a byte list, as 16 bytes. -/
def md5Bytes (msg : List ℕ) : List ℕ :=
  let r := (chunks64 (md5Pad msg)).foldl md5Chunk
    (0x67452301, 0xefcdab89, 0x98badcfe, 0x10325476)
  ([r.1, r.2.1, r.2.2.1, r.2.2.2].map
    (fun word => (List.range 4).map (fun i => (word >>> (8 * i)) % 256))).flatten

/-- Lowercase hex digit. -/
def hexDigit (n : ℕ) : Char :=
  if n < 10 then Char.ofNat (48 + n) else Char.ofNat (87 + n)

/-- The bytes of a string; cache-key inputs (ids and the fixed prefixes) are
ASCII, where the code points are the UTF-8 bytes. -/
def strBytes (s : String) : List ℕ := s.data.map Char.toNat

/-- `hashlib.md5(s.encode()).hexdigest()`. -/
def md5Hex (s : String) : String :=
  ⟨((md5Bytes (strBytes s)).map
    (fun b => [hexDigit (b / 16), hexDigit (b % 16)])).flatten⟩

/-! ## Explanation adapter (`llm_service.py`) -/

/-- `SMap.lookup?`: `k in d` plus `d[k]` on a string-valued dict. -/
def SMap.lookup? (m : SMap) (k : String) : Option String :=
  (m.find? (fun p => p.1 = k)).map (fun p => p.2)

/-- `_cache_key(prefix, *args) = md5(f"{prefix}:{':'.join(args)}").hexdigest()`. -/
def cache_key (pre : String) (args : List String) : String :=
  md5Hex (pre ++ ":" ++ String.intercalate ":" args)

/-- Substring test on character lists (Python `needle in hay` on strings). -/
def containsSub (n : List Char) : List Char → Bool
  | [] => decide (n = [])
  | c :: rest => n.isPrefixOf (c :: rest) || containsSub n rest

/-- Python `needle in hay` for strings. -/
def pyIn (needle hay : String) : Bool := containsSub needle.data hay.data

/-- `invalidate_reviewer_cache`: delete every stored key of which the
reviewer id is a substring, keeping the rest. -/
def invalidate_reviewer_cache (cache : SMap) (reviewer_id : String) : SMap :=
  cache.filter (fun p => ¬ pyIn reviewer_id p.1)

/-- `clear_cache`. -/
def clear_cache (_cache : SMap) : SMap := []

/-- `LLMResponse` dataclass. -/
structure LLMResponse where
  text : String
  model : String
  cached : Bool := false
  error : Option String := none
  deriving Repr, DecidableEq

/-- `FragranceDetails` dataclass. -/
structure FragranceDetails where
  name : String
  brand : String
  family : String
  subfamily : String
  top_notes : List String := []
  heart_notes : List String := []
  base_notes : List String := []
  accords : List String := []
  deriving Repr, DecidableEq

/-- `LLMService` state: whether the adapter is enabled (configured with a
key), the configured model name, and the in-memory explanation cache. -/
structure LLMService where
  enabled : Bool
  model : String
  cache : SMap
  deriving Repr, DecidableEq

/-- `LLMService.__init__`: enabled iff `llm_enabled` is set and the API key
is non-empty (`bool(self.api_key)`); the cache starts empty. -/
def LLMService.init (llm_enabled : Bool) (api_key model : String) : LLMService :=
  ⟨llm_enabled && decide (api_key ≠ ""), model, []⟩

/-- Python `s or d` for strings: `d` when `s` is empty. -/
def orDefault (s d : String) : String := if s = "" then d else s

/-- Python `opt or d` for an optional string. -/
def optOrDefault (opt : Option String) (d : String) : String :=
  match opt with
  | none => d
  | some s => orDefault s d

/-- `", ".join(n for n, _ in pairs)`. -/
def joinNames (pairs : List (String × ℚ)) : String :=
  String.intercalate ", " (pairs.map (fun p => p.1))

/-- Top keys of an affinity dict by value descending (Python `sorted` with
`key=lambda x: x[1], reverse=True`, which is stable), first `k`, joined. -/
def topKeysJoined (m : FMap) (k : ℕ) : String :=
  String.intercalate ", "
    (((pySort (fun a b => decide (b.2 ≤ a.2)) m).take k).map (fun p => p.1))

/-- `RECOMMENDATION_PROMPT.format(...)` for a non-vetoed recommendation. -/
noncomputable def buildRecommendationPrompt (recommendation : Recommendation)
    (profile : UserProfile) (details : FragranceDetails) : String :=
  let liked := orDefault (joinNames profile.top_liked_notes) "None"
  let disliked := orDefault (joinNames profile.top_disliked_notes) "None"
  let families := orDefault (topKeysJoined profile.family_affinities 3) "Various"
  let fname := details.name
  let fbrand := details.brand
  let pct := recommendation.match_percent
  let fam := details.family
  let top := orDefault (String.intercalate ", " details.top_notes) "Unknown"
  let heart := orDefault (String.intercalate ", " details.heart_notes) "Unknown"
  let base := orDefault (String.intercalate ", " details.base_notes) "Unknown"
  let accords := orDefault (String.intercalate ", " details.accords) "Unknown"
  s!"You are a fragrance expert. Explain why this fragrance might appeal to the user.\n\nUser\x27s preference profile:\n- Likes: {liked}\n- Dislikes: {disliked}\n- Preferred families: {families}\n\nFragrance: {fname} by {fbrand}\n- Match Score: {pct}%\n- Family: {fam}\n- Top notes: {top}\n- Heart notes: {heart}\n- Base notes: {base}\n- Accords: {accords}\n\nWrite 2-3 sentences explaining the match. Highlight specific notes they\x27ll enjoy.\nIf there are notes they typically dislike, acknowledge this as a potential concern.\nKeep the response concise and helpful."

/-- `VETOED_RECOMMENDATION_PROMPT.format(...)`; the code passes the whole
`veto_reason` sentence as the `veto_note` placeholder. -/
def buildVetoedPrompt (recommendation : Recommendation)
    (profile : UserProfile) (details : FragranceDetails) : String :=
  let liked := orDefault (joinNames profile.top_liked_notes) "None"
  let disliked := orDefault (joinNames profile.top_disliked_notes) "None"
  let fname := details.name
  let fbrand := details.brand
  let veto := optOrDefault recommendation.veto_reason "a disliked note"
  let top := orDefault (String.intercalate ", " details.top_notes) "Unknown"
  let heart := orDefault (String.intercalate ", " details.heart_notes) "Unknown"
  let base := orDefault (String.intercalate ", " details.base_notes) "Unknown"
  s!"You are a fragrance expert. Explain why this fragrance might NOT be ideal for the user.\n\nUser\x27s preference profile:\n- Likes: {liked}\n- Dislikes: {disliked}\n\nFragrance: {fname} by {fbrand}\n- Contains: {veto} (which they dislike)\n- Top notes: {top}\n- Heart notes: {heart}\n- Base notes: {base}\n\nWrite 1-2 sentences explaining why this might not be their best choice,\nbut acknowledge any positive aspects if relevant."

/-- `PROFILE_SUMMARY_PROMPT.format(...)`. -/
def buildProfilePrompt (profile : UserProfile) (reviewer_name : String) : String :=
  let count := profile.evaluation_count
  let liked := orDefault (joinNames profile.top_liked_notes) "None yet"
  let disliked := orDefault (joinNames profile.top_disliked_notes) "None yet"
  let accords := orDefault (topKeysJoined profile.accord_affinities 5) "Various"
  let families := orDefault (topKeysJoined profile.family_affinities 5) "Various"
  s!"You are a fragrance expert. Summarize this user\x27s fragrance preferences.\n\nUser: {reviewer_name}\nNumber of fragrances rated: {count}\n\nTop liked notes: {liked}\nTop disliked notes: {disliked}\nPreferred accords: {accords}\nPreferred fragrance families: {families}\n\nWrite a 2-3 sentence natural language summary of their preferences.\nBe specific about what scent profiles they gravitate towards and what they avoid.\nKeep the tone friendly and informative."

/-- `_fallback_recommendation_explanation`: the rule-based explanation. -/
noncomputable def fallback_recommendation_explanation
    (recommendation : Recommendation) (profile : UserProfile)
    (details : FragranceDetails) : LLMResponse :=
  if recommendation.vetoed then
    { text := "This fragrance contains notes you typically dislike. You might want to explore other options first."
      model := "fallback" }
  else
    let liked := (profile.top_liked_notes.take 3).map (fun p => p.1)
    let allNotes := (details.top_notes ++ details.heart_notes
      ++ details.base_notes).map String.toLower
    let matching := liked.filter (fun n => allNotes.contains n.toLower)
    let pct := recommendation.match_percent
    if matching ≠ [] then
      let ms := String.intercalate ", " matching
      { text := s!"This {pct}% match contains {ms} which you\x27ve enjoyed in other fragrances."
        model := "fallback" }
    else
      let fam := details.family
      { text := s!"With a {pct}% match score, this fragrance aligns well with your general preferences for {fam} scents."
        model := "fallback" }

/-- `_fallback_profile_summary`: the rule-based profile summary. -/
def fallback_profile_summary (profile : UserProfile) (reviewer_name : String) :
    LLMResponse :=
  let liked := (profile.top_liked_notes.take 3).map (fun p => p.1)
  let disliked := (profile.top_disliked_notes.take 3).map (fun p => p.1)
  let count := profile.evaluation_count
  let likedStr := String.intercalate ", " liked
  let dislikedStr := String.intercalate ", " disliked
  let parts := [s!"{reviewer_name} has rated {count} fragrances."]
  let parts := if liked ≠ [] then
    parts ++ [s!"They tend to enjoy notes like {likedStr}."]
    else parts
  let parts := if disliked ≠ [] then
    parts ++ [s!"They generally avoid {dislikedStr}."]
    else parts
  let parts := if liked = [] ∧ disliked = [] then
    parts ++ ["More evaluations needed to identify clear preferences."]
    else parts
  { text := String.intercalate " " parts, model := "fallback" }

/-! ### `_call_openrouter` and its error surface

The external HTTP call is the only I/O; the world is embedded as an oracle
mapping the prompt to the call's outcome: a transport failure, an HTTP
status failure, an undecodable body, or a parsed JSON body.  The code's
`try` converts `httpx` failures and `(KeyError, IndexError,
json.JSONDecodeError)` into `LLMServiceError`; a `TypeError` (subscripting a
non-object JSON value) or an `AttributeError` (`.strip()` on a null
content) is NOT caught and escapes as an interpreter exception. -/

/-- A parsed JSON value, as far as the extraction path inspects it. -/
inductive JValue where
  | jnull
  | jstr (s : String)
  | jnum (n : ℚ)
  | jarr (xs : List JValue)
  | jobj (fields : List (String × JValue))

/-- Exceptions the extraction expression can raise; `keyError` and
`indexError` are caught by the surrounding `except`, the other two are not. -/
inductive ExtractErr where
  | keyError
  | indexError
  | typeError
  | attributeError
  deriving Repr, DecidableEq

/-- Exceptions that can escape the adapter's operations: the converted
`LLMServiceError`, or an uncaught interpreter exception (carried by class
only — the interpreter, not the code, words those messages). -/
inductive PyError where
  | llmServiceError (msg : String)
  | typeError
  | attributeError
  deriving Repr, DecidableEq

/-- Outcome of the HTTP call in `_call_openrouter`'s `try` block. -/
inductive CallOutcome where
  | requestError (msg : String)
  | statusError (code : ℕ)
  | decodeError (msg : String)
  | body (v : JValue)

/-- Python `v[key]` for a string key: a field of a JSON object, `KeyError`
when absent, `TypeError` on any non-object value. -/
def getItemStr (v : JValue) (key : String) : Except ExtractErr JValue :=
  match v with
  | .jobj fields =>
      match fields.find? (fun p => p.1 = key) with
      | some p => .ok p.2
      | none => .error .keyError
  | _ => .error .typeError

/-- Python `v[0]`: head of an array (`IndexError` when empty), `KeyError` on
an object without integer keys, a one-character string on a non-empty
string, `TypeError` otherwise. -/
def getItemZero (v : JValue) : Except ExtractErr JValue :=
  match v with
  | .jarr [] => .error .indexError
  | .jarr (x :: _) => .ok x
  | .jobj _ => .error .keyError
  | .jstr s =>
      match s.data with
      | [] => .error .indexError
      | c :: _ => .ok (.jstr ⟨[c]⟩)
  | _ => .error .typeError

/-- Python `v.strip()`: defined on strings only, `AttributeError` otherwise. -/
def stripJ (v : JValue) : Except ExtractErr String :=
  match v with
  | .jstr s => .ok s.trim
  | _ => .error .attributeError

/-- `data["choices"][0]["message"]["content"].strip()`. -/
def extractContent (data : JValue) : Except ExtractErr String := do
  let choices ← getItemStr data "choices"
  let first ← getItemZero choices
  let message ← getItemStr first "message"
  let content ← getItemStr message "content"
  stripJ content

/-- `_call_openrouter`'s error handling over the call outcome: `httpx` and
JSON-decode failures become `LLMServiceError`, as do `KeyError` and
`IndexError` from the extraction (the caught messages interpolate the
exception; the embedding words them by exception class); a `TypeError` or
`AttributeError` from the extraction escapes uncaught. -/
def call_openrouter (outcome : CallOutcome) : Except PyError String :=
  match outcome with
  | .requestError m => .error (.llmServiceError s!"OpenRouter request failed: {m}")
  | .statusError c => .error (.llmServiceError s!"OpenRouter API error: {c}")
  | .decodeError m => .error (.llmServiceError s!"Invalid OpenRouter response: {m}")
  | .body v =>
      match extractContent v with
      | .ok t => .ok t
      | .error .keyError =>
          .error (.llmServiceError "Invalid OpenRouter response: KeyError")
      | .error .indexError =>
          .error (.llmServiceError "Invalid OpenRouter response: IndexError")
      | .error .typeError => .error .typeError
      | .error .attributeError => .error .attributeError

/-- `generate_recommendation_explanation`.  The `except LLMServiceError`
around the call converts that error into the fallback with `error`
populated; any other exception escaping `_call_openrouter` propagates to
the caller, which the `Except` result models. -/
noncomputable def generate_recommendation_explanation (svc : LLMService)
    (oracle : String → CallOutcome) (recommendation : Recommendation)
    (profile : UserProfile) (details : FragranceDetails) :
    Except PyError (LLMResponse × LLMService) :=
  if ¬ svc.enabled then
    .ok (fallback_recommendation_explanation recommendation profile details, svc)
  else
    let key := cache_key "rec" [recommendation.fragrance_id, profile.reviewer_id]
    match svc.cache.lookup? key with
    | some t => .ok ({ text := t, model := svc.model, cached := true }, svc)
    | none =>
        let prompt :=
          if recommendation.vetoed then
            buildVetoedPrompt recommendation profile details
          else buildRecommendationPrompt recommendation profile details
        match call_openrouter (oracle prompt) with
        | .ok t =>
            .ok ({ text := t, model := svc.model, cached := false },
              { svc with cache := svc.cache.setTo key t })
        | .error (.llmServiceError e) =>
            .ok ({ fallback_recommendation_explanation recommendation profile
                details with error := some e }, svc)
        | .error err => .error err

/-- `generate_profile_summary`, with the same call embedding. -/
def generate_profile_summary (svc : LLMService)
    (oracle : String → CallOutcome) (profile : UserProfile)
    (reviewer_name : String) : Except PyError (LLMResponse × LLMService) :=
  if ¬ svc.enabled then
    .ok (fallback_profile_summary profile reviewer_name, svc)
  else
    let key := cache_key "profile" [profile.reviewer_id]
    match svc.cache.lookup? key with
    | some t => .ok ({ text := t, model := svc.model, cached := true }, svc)
    | none =>
        match call_openrouter (oracle (buildProfilePrompt profile reviewer_name)) with
        | .ok t =>
            .ok ({ text := t, model := svc.model, cached := false },
              { svc with cache := svc.cache.setTo key t })
        | .error (.llmServiceError e) =>
            .ok ({ fallback_profile_summary profile reviewer_name
                with error := some e }, svc)
        | .error err => .error err

/-! ## Reference definitions, following the spec's and the claims' wording -/

/-- Strict code-point lexicographic order on character lists — Python's
`<` on strings. -/
def charListLt : List Char → List Char → Bool
  | [], [] => false
  | [], _ :: _ => true
  | _ :: _, [] => false
  | c :: cs, d :: ds =>
      if c.toNat < d.toNat then true
      else if d.toNat < c.toNat then false
      else charListLt cs ds

/-- Code-point lexicographic `≤` on character lists — Python's `<=`. -/
def charListLe : List Char → List Char → Bool
  | [], _ => true
  | _ :: _, [] => false
  | c :: cs, d :: ds =>
      if c.toNat < d.toNat then true
      else if d.toNat < c.toNat then false
      else charListLe cs ds

/-- Python `a < b` on strings. -/
def strLt (a b : String) : Bool := charListLt a.data b.data

/-- Python `a <= b` on strings. -/
def strLe (a b : String) : Bool := charListLe a.data b.data

/-- The spec's mean: `mean over an empty set = 0`, else sum over length. -/
def refMean (l : List ℚ) : ℚ := if l = [] then 0 else l.sum / l.length

/-- How many positioned notes of `f` carry the note id `nid` (by the
uniqueness invariant at most one, but the code counts each occurrence). -/
def noteCount (f : Fragrance) (nid : String) : ℕ :=
  (f.notes.filter (fun fn => fn.note.id = nid)).length

/-- Total declared intensity of the accords of `f` with type `a`. -/
def accordSum (f : Fragrance) (a : String) : ℚ :=
  ((f.accords.filter (fun acc => acc.accord_type = a)).map
    (fun acc => acc.intensity)).sum

/-- Per-evaluation family-map coefficient of key `k`: `1` from the primary
family, `0.5` from the subfamily, additively in the same map. -/
def famCoeff (f : Fragrance) (k : String) : ℚ :=
  (if f.primary_family = k then 1 else 0) + (if f.subfamily = k then 1 / 2 else 0)

/-- The sort key the code uses, read on the real-valued stored scores:
`(not vetoed, match_score)` of `a` is lexicographically ≥ that of `b`. -/
def codeKeyGe (a b : Recommendation) : Prop :=
  (a.vetoed = false ∧ b.vetoed = true) ∨
  (a.vetoed = b.vetoed ∧ b.match_score ≤ a.match_score)

/-- The claim's sort key: vetoed flag ascending, score descending, name
ascending, id ascending — `a` may precede `b` under that total order. -/
def claimKeyLe (a b : Recommendation) : Prop :=
  (a.vetoed = false ∧ b.vetoed = true) ∨
  (a.vetoed = b.vetoed ∧ b.match_score < a.match_score) ∨
  (a.vetoed = b.vetoed ∧ a.match_score = b.match_score ∧
    (strLt a.fragrance_name b.fragrance_name = true ∨
      (a.fragrance_name = b.fragrance_name ∧
        strLe a.fragrance_id b.fragrance_id = true)))

/-- Sortedness by the claim's key. -/
def claimKeySorted (l : List Recommendation) : Prop := l.Pairwise claimKeyLe

/-- The claim's reading of the veto note: the first vetoed note when the
positioned notes are iterated in note-name-ascending order. -/
def vetoNoteSpec (profile : UserProfile) (fragrance : Fragrance) : Option String :=
  ((pySort (fun a b => strLe a.note.name b.note.name) fragrance.notes).find?
    (vetoHit profile)).map (fun fn => fn.note.name)

/-! # Theorems -/

/-- MD5 test vector, validating the embedding of `hashlib.md5`. -/
example : md5Hex "abc" = "900150983cd24fb0d6963f7d28e17f72" := by decide

/-- MD5 test vector: the empty string. -/
example : md5Hex "" = "d41d8cd98f00b204e9800998ecf8427e" := by decide

/-! ## Association-map lemmas -/

theorem FMap.getD_nil (k : String) : FMap.getD [] k = 0 := rfl

theorem FMap.getD_addTo (m : FMap) (k : String) (v : ℚ) (k' : String) :
    (m.addTo k v).getD k' = m.getD k' + (if k' = k then v else 0) := by
  induction m with
  | nil =>
      by_cases h : k' = k
      · subst h; simp [FMap.addTo, FMap.getD, List.find?]
      · simp [FMap.addTo, FMap.getD, List.find?, h, Ne.symm h]
  | cons p rest ih =>
      obtain ⟨k'', v''⟩ := p
      by_cases h1 : k'' = k
      · subst h1
        by_cases h2 : k' = k''
        · subst h2; simp [FMap.addTo, FMap.getD, List.find?]
        · simp [FMap.addTo, FMap.getD, List.find?, h2, Ne.symm h2]
      · by_cases h2 : k' = k''
        · subst h2
          simp [FMap.addTo, FMap.getD, List.find?, h1, Ne.symm h1]
        · simp [FMap.addTo, FMap.getD, List.find?, h1, h2, Ne.symm h2] at ih ⊢
          simpa [FMap.getD] using ih

/-! ## Stable-sort lemmas -/

theorem pyInsert_mem {le : α → α → Bool} {x a : α} {l : List α} :
    a ∈ pyInsert le x l ↔ a = x ∨ a ∈ l := by
  induction l with
  | nil => simp [pyInsert]
  | cons y ys ih =>
      by_cases h : le x y
      · simp [pyInsert, h]
      · simp [pyInsert, h, ih]; tauto

theorem pySort_mem {le : α → α → Bool} {a : α} {l : List α} :
    a ∈ pySort le l ↔ a ∈ l := by
  induction l with
  | nil => simp [pySort]
  | cons x xs ih => simp [pySort, pyInsert_mem, ih]

theorem pyInsert_pairwise {le : α → α → Bool}
    (htrans : ∀ a b c, le a b = true → le b c = true → le a c = true)
    (htot : ∀ a b, le a b = true ∨ le b a = true) (x : α) {l : List α}
    (hl : l.Pairwise (fun a b => le a b = true)) :
    (pyInsert le x l).Pairwise (fun a b => le a b = true) := by
  induction l with
  | nil => simp [pyInsert]
  | cons y ys ih =>
      rcases List.pairwise_cons.mp hl with ⟨hy, hys⟩
      by_cases h : le x y = true
      · simp only [pyInsert, h, if_true]
        refine List.pairwise_cons.mpr ⟨?_, hl⟩
        intro z hz
        rcases List.mem_cons.mp hz with rfl | hz
        · exact h
        · exact htrans _ _ _ h (hy z hz)
      · simp only [pyInsert, h, if_false]
        refine List.pairwise_cons.mpr ⟨?_, ih hys⟩
        intro z hz
        rcases pyInsert_mem.mp hz with rfl | hz
        · exact (htot z y).resolve_left h
        · exact hy z hz

theorem pySort_pairwise {le : α → α → Bool}
    (htrans : ∀ a b c, le a b = true → le b c = true → le a c = true)
    (htot : ∀ a b, le a b = true ∨ le b a = true) (l : List α) :
    (pySort le l).Pairwise (fun a b => le a b = true) := by
  induction l with
  | nil => simp [pySort]
  | cons x xs ih => exact pyInsert_pairwise htrans htot x ih

/-! ## Logistic lemmas -/

theorem logistic_pos (x : ℝ) : 0 < logistic x := by
  unfold logistic
  positivity

theorem logistic_lt_one (x : ℝ) : logistic x < 1 := by
  unfold logistic
  rw [div_lt_one (by positivity)]
  linarith [Real.exp_pos (-x)]

theorem logistic_le_iff {x y : ℝ} : logistic x ≤ logistic y ↔ x ≤ y := by
  unfold logistic
  rw [div_le_div_iff₀ (by positivity) (by positivity), one_mul, one_mul,
    add_le_add_iff_left, Real.exp_le_exp, neg_le_neg_iff]

theorem pyInt_eq_floor {x : ℝ} (h : 0 ≤ x) : pyInt x = ⌊x⌋ := by
  unfold pyInt
  exact if_pos h

/-! ## Scorer lemmas -/

theorem FMap.getD_cons_self (k : String) (v : ℚ) (rest : FMap) :
    FMap.getD ((k, v) :: rest) k = v := by
  simp [FMap.getD, List.find?]

theorem FMap.getD_cons_ne {k k' : String} (h : k' ≠ k) (v : ℚ) (rest : FMap) :
    FMap.getD ((k, v) :: rest) k' = FMap.getD rest k' := by
  simp [FMap.getD, List.find?, Ne.symm h]

/-- `sum(l) / max(len(l), 1)` is the spec's mean-with-empty-as-zero. -/
theorem sum_div_max_eq_refMean (l : List ℚ) :
    l.sum / ((max l.length 1 : ℕ) : ℚ) = refMean l := by
  cases l with
  | nil => simp [refMean]
  | cons x xs =>
      have h : max (xs.length + 1) 1 = xs.length + 1 :=
        Nat.max_eq_left (Nat.succ_le_succ (Nat.zero_le _))
      simp only [refMean, List.length_cons, List.sum_cons, h, if_neg
        (by simp : ¬ (x :: xs = []))]

/-- Concrete inputs for the scorer witnesses / counterexample: a profile that
strongly dislikes two notes, and a fragrance that lists those notes with the
name-descending one stored first. -/
def cProfileVeto : UserProfile :=
  { reviewer_id := "r", note_affinities := [("nz", -4), ("na", -4)] }

/-- The fragrance whose stored note order is ["Zeta", "Alpha"]. -/
def cFragranceVeto : Fragrance :=
  { id := "f1", name := "F", brand := "B", primary_family := "Woody",
    subfamily := "Woody",
    notes := [⟨⟨"nz", "Zeta"⟩, "top"⟩, ⟨⟨"na", "Alpha"⟩, "heart"⟩],
    accords := [] }

/-- C1 (amended): the scorer vetoes exactly when some positioned note has
affinity strictly below `VETO_THRESHOLD = -3.0` (missing key counts as `0`);
a vetoed result is exactly `score = 0.1`, `score_percent = 10`, empty
components, and the veto note is the name of the first offending note in the
fragrance's stored note order (not in note-name-ascending order). -/
theorem C1_veto_rule (profile : UserProfile) (fragrance : Fragrance) :
    ((calculate_match_score profile fragrance).vetoed = true ↔
      ∃ fn ∈ fragrance.notes,
        profile.note_affinities.getD fn.note.id < VETO_THRESHOLD) ∧
    ((calculate_match_score profile fragrance).vetoed = true →
      (calculate_match_score profile fragrance).score = 0.1 ∧
      (calculate_match_score profile fragrance).score_percent = 10 ∧
      (calculate_match_score profile fragrance).components = [] ∧
      (calculate_match_score profile fragrance).veto_note =
        (fragrance.notes.find? (vetoHit profile)).map (fun fn => fn.note.name)) := by
  cases hfind : fragrance.notes.find? (vetoHit profile) with
  | none =>
      refine ⟨⟨fun h => ?_, fun h => ?_⟩, fun h => ?_⟩
      · simp [calculate_match_score, hfind] at h
      · obtain ⟨fn, hmem, hlt⟩ := h
        have hno := List.find?_eq_none.mp hfind fn hmem
        simp [vetoHit] at hno
        exact absurd hlt (not_lt.mpr hno)
      · simp [calculate_match_score, hfind] at h
  | some fn =>
      have hmem := List.mem_of_find?_eq_some hfind
      have hhit := List.find?_some hfind
      simp only [vetoHit, decide_eq_true_eq] at hhit
      refine ⟨⟨fun _ => ⟨fn, hmem, hhit⟩, fun _ => ?_⟩, fun _ => ?_⟩
      · simp [calculate_match_score, hfind]
      · refine ⟨?_, ?_, ?_, ?_⟩ <;>
          simp [calculate_match_score, hfind, MatchResult.score,
            MatchResult.score_percent]

/-- Witness for C1 at a concrete vetoed input. -/
theorem C1_veto_rule_witness :
    (calculate_match_score cProfileVeto cFragranceVeto).score = 0.1 ∧
    (calculate_match_score cProfileVeto cFragranceVeto).score_percent = 10 ∧
    (calculate_match_score cProfileVeto cFragranceVeto).components = [] ∧
    (calculate_match_score cProfileVeto cFragranceVeto).veto_note =
      (cFragranceVeto.notes.find? (vetoHit cProfileVeto)).map
        (fun fn => fn.note.name) :=
  (C1_veto_rule cProfileVeto cFragranceVeto).2 (by decide)

/-- C1 counterexample: with both notes vetoed, the code reports the first
note in the stored order ("Zeta"); the claim's note-name-ascending iteration
would report "Alpha". -/
theorem C1_counterexample :
    (calculate_match_score cProfileVeto cFragranceVeto).veto_note = some "Zeta" ∧
    vetoNoteSpec cProfileVeto cFragranceVeto = some "Alpha" ∧
    some "Zeta" ≠ some "Alpha" := by decide

/-- An empty profile, used as a concrete non-vetoed scorer input. -/
def cProfileEmpty : UserProfile := { reviewer_id := "r" }

/-- A fragrance with no notes and no accords. -/
def cFragranceEmpty : Fragrance :=
  { id := "f0", name := "N", brand := "B", primary_family := "Fresh",
    subfamily := "Citrus", notes := [], accords := [] }

/-- C3: for every profile and non-vetoed fragrance, the match result is the
reference definition — the notes component is the mean of the note
affinities (missing key 0, empty mean 0), the accords component the mean of
affinity × intensity, family and subfamily single lookups, `raw` the
0.40/0.30/0.20/0.10 weighted sum, `score` the logistic of `raw`, strictly in
(0, 1), and `score_percent` its floored percentage. -/
theorem C3_scorer (profile : UserProfile) (fragrance : Fragrance)
    (h : (calculate_match_score profile fragrance).vetoed = false) :
    (calculate_match_score profile fragrance).components.getD "notes" =
      refMean (fragrance.notes.map
        (fun fn => profile.note_affinities.getD fn.note.id)) ∧
    (calculate_match_score profile fragrance).components.getD "accords" =
      refMean (fragrance.accords.map
        (fun acc => profile.accord_affinities.getD acc.accord_type * acc.intensity)) ∧
    (calculate_match_score profile fragrance).components.getD "family" =
      profile.family_affinities.getD fragrance.primary_family ∧
    (calculate_match_score profile fragrance).components.getD "subfamily" =
      profile.family_affinities.getD fragrance.subfamily ∧
    (calculate_match_score profile fragrance).raw =
      40 / 100 * (calculate_match_score profile fragrance).components.getD "notes"
      + 30 / 100 * (calculate_match_score profile fragrance).components.getD "accords"
      + 20 / 100 * (calculate_match_score profile fragrance).components.getD "family"
      + 10 / 100 * (calculate_match_score profile fragrance).components.getD "subfamily" ∧
    (calculate_match_score profile fragrance).components.getD "raw" =
      (calculate_match_score profile fragrance).raw ∧
    (calculate_match_score profile fragrance).score =
      logistic (calculate_match_score profile fragrance).raw ∧
    0 < (calculate_match_score profile fragrance).score ∧
    (calculate_match_score profile fragrance).score < 1 ∧
    (calculate_match_score profile fragrance).score_percent =
      ⌊(calculate_match_score profile fragrance).score * 100⌋ := by
  cases hfind : fragrance.notes.find? (vetoHit profile) with
  | some fn => simp [calculate_match_score, hfind] at h
  | none =>
      simp only [calculate_match_score, hfind]
      refine ⟨?_, ?_, ?_, ?_, ?_, ?_, ?_, ?_, ?_, ?_⟩
      · rw [FMap.getD_cons_self]
        exact sum_div_max_eq_refMean _
      · rw [FMap.getD_cons_ne (by decide), FMap.getD_cons_self]
        exact sum_div_max_eq_refMean _
      · rw [FMap.getD_cons_ne (by decide), FMap.getD_cons_ne (by decide),
          FMap.getD_cons_self]
      · rw [FMap.getD_cons_ne (by decide), FMap.getD_cons_ne (by decide),
          FMap.getD_cons_ne (by decide), FMap.getD_cons_self]
      · rw [FMap.getD_cons_self, FMap.getD_cons_ne (by decide),
          FMap.getD_cons_self, FMap.getD_cons_ne (by decide),
          FMap.getD_cons_ne (by decide), FMap.getD_cons_self,
          FMap.getD_cons_ne (by decide), FMap.getD_cons_ne (by decide),
          FMap.getD_cons_ne (by decide), FMap.getD_cons_self]
        rfl
      · rw [FMap.getD_cons_ne (by decide), FMap.getD_cons_ne (by decide),
          FMap.getD_cons_ne (by decide), FMap.getD_cons_ne (by decide),
          FMap.getD_cons_self]
      · simp [MatchResult.score]
      · simp [MatchResult.score]
        exact logistic_pos _
      · simp [MatchResult.score]
        exact logistic_lt_one _
      · simp only [MatchResult.score, MatchResult.score_percent, if_neg
          (by simp : ¬ (false = true))]
        exact pyInt_eq_floor
          (le_of_lt (mul_pos (logistic_pos _) (by norm_num)))

/-- Witness for C3 at a concrete non-vetoed input. -/
theorem C3_scorer_witness :
    0 < (calculate_match_score cProfileEmpty cFragranceEmpty).score ∧
    (calculate_match_score cProfileEmpty cFragranceEmpty).score < 1 := by
  obtain ⟨-, -, -, -, -, -, -, hpos, hlt, -⟩ :=
    C3_scorer cProfileEmpty cFragranceEmpty (by decide)
  exact ⟨hpos, hlt⟩

/-! ## Aggregator lemmas -/

theorem foldl_noteStep_getD (w : ℚ) (l : List FragranceNote) (m : FMap)
    (names : SMap) (k : String) :
    ((l.foldl (noteStep w) (m, names)).1).getD k
      = m.getD k + w * ((l.filter (fun fn => fn.note.id = k)).length : ℚ) := by
  induction l generalizing m names with
  | nil => simp
  | cons fn rest ih =>
      rw [List.foldl_cons,
        show noteStep w (m, names) fn
          = (m.addTo fn.note.id w, names.setTo fn.note.id fn.note.name) from rfl,
        ih, FMap.getD_addTo, List.filter_cons]
      by_cases hk : fn.note.id = k
      · rw [if_pos hk.symm, if_pos (decide_eq_true hk), List.length_cons]
        push_cast
        ring
      · rw [if_neg (fun hh => hk hh.symm), if_neg (by simp [hk])]
        ring

theorem foldl_accord_getD (w : ℚ) (l : List FragranceAccord) (m : FMap)
    (k : String) :
    (l.foldl (fun m acc => FMap.addTo m acc.accord_type (w * acc.intensity)) m).getD k
      = m.getD k
        + w * ((l.filter (fun acc => acc.accord_type = k)).map
            (fun acc => acc.intensity)).sum := by
  induction l generalizing m with
  | nil => simp
  | cons acc rest ih =>
      rw [List.foldl_cons, ih, FMap.getD_addTo, List.filter_cons]
      by_cases hk : acc.accord_type = k
      · rw [if_pos hk.symm, if_pos (decide_eq_true hk), List.map_cons,
          List.sum_cons]
        ring
      · rw [if_neg (fun hh => hk hh.symm), if_neg (by simp [hk])]
        ring

theorem famAff_getD (w : ℚ) (m : FMap) (pf sf k : String) :
    ((m.addTo pf w).addTo sf (w * (1 / 2))).getD k
      = m.getD k
        + w * ((if pf = k then 1 else 0) + (if sf = k then 1 / 2 else 0)) := by
  rw [FMap.getD_addTo, FMap.getD_addTo]
  by_cases h1 : k = pf <;> by_cases h2 : k = sf
  · rw [if_pos h1, if_pos h2, if_pos h1.symm, if_pos h2.symm]; ring
  · rw [if_pos h1, if_neg h2, if_pos h1.symm,
      if_neg (fun hh => h2 hh.symm)]; ring
  · rw [if_neg h1, if_pos h2, if_neg (fun hh => h1 hh.symm),
      if_pos h2.symm]; ring
  · rw [if_neg h1, if_neg h2, if_neg (fun hh => h1 hh.symm),
      if_neg (fun hh => h2 hh.symm)]; ring

theorem processEval_note_getD (st : AggSt) (e : Evaluation) (k : String) :
    (processEval st e).note_affinities.getD k
      = st.note_affinities.getD k
        + RATING_WEIGHTS e.rating * (noteCount e.fragrance k : ℚ) := by
  simp only [processEval, noteCount]
  exact foldl_noteStep_getD _ _ _ _ _

theorem processEval_accord_getD (st : AggSt) (e : Evaluation) (k : String) :
    (processEval st e).accord_affinities.getD k
      = st.accord_affinities.getD k
        + RATING_WEIGHTS e.rating * accordSum e.fragrance k := by
  simp only [processEval, accordSum]
  exact foldl_accord_getD _ _ _ _

theorem processEval_family_getD (st : AggSt) (e : Evaluation) (k : String) :
    (processEval st e).family_affinities.getD k
      = st.family_affinities.getD k
        + RATING_WEIGHTS e.rating * famCoeff e.fragrance k := by
  simp only [processEval, famCoeff]
  exact famAff_getD _ _ _ _ _

theorem foldl_processEval_note (evs : List Evaluation) (st : AggSt) (k : String) :
    ((evs.foldl processEval st).note_affinities).getD k
      = st.note_affinities.getD k
        + (evs.map (fun e =>
            RATING_WEIGHTS e.rating * (noteCount e.fragrance k : ℚ))).sum := by
  induction evs generalizing st with
  | nil => simp
  | cons e rest ih =>
      rw [List.foldl_cons, ih, processEval_note_getD, List.map_cons,
        List.sum_cons]
      ring

theorem foldl_processEval_accord (evs : List Evaluation) (st : AggSt) (k : String) :
    ((evs.foldl processEval st).accord_affinities).getD k
      = st.accord_affinities.getD k
        + (evs.map (fun e =>
            RATING_WEIGHTS e.rating * accordSum e.fragrance k)).sum := by
  induction evs generalizing st with
  | nil => simp
  | cons e rest ih =>
      rw [List.foldl_cons, ih, processEval_accord_getD, List.map_cons,
        List.sum_cons]
      ring

theorem foldl_processEval_family (evs : List Evaluation) (st : AggSt) (k : String) :
    ((evs.foldl processEval st).family_affinities).getD k
      = st.family_affinities.getD k
        + (evs.map (fun e =>
            RATING_WEIGHTS e.rating * famCoeff e.fragrance k)).sum := by
  induction evs generalizing st with
  | nil => simp
  | cons e rest ih =>
      rw [List.foldl_cons, ih, processEval_family_getD, List.map_cons,
        List.sum_cons]
      ring

theorem buildProfile_note (db : Database) (rid k : String) :
    (build_preference_profile db rid).note_affinities.getD k
      = ((reviewerEvals db rid).map
          (fun e => RATING_WEIGHTS e.rating * (noteCount e.fragrance k : ℚ))).sum := by
  simp only [build_preference_profile]
  rw [foldl_processEval_note]
  simp [FMap.getD]

theorem buildProfile_accord (db : Database) (rid k : String) :
    (build_preference_profile db rid).accord_affinities.getD k
      = ((reviewerEvals db rid).map
          (fun e => RATING_WEIGHTS e.rating * accordSum e.fragrance k)).sum := by
  simp only [build_preference_profile]
  rw [foldl_processEval_accord]
  simp [FMap.getD]

theorem buildProfile_family (db : Database) (rid k : String) :
    (build_preference_profile db rid).family_affinities.getD k
      = ((reviewerEvals db rid).map
          (fun e => RATING_WEIGHTS e.rating * famCoeff e.fragrance k)).sum := by
  simp only [build_preference_profile]
  rw [foldl_processEval_family]
  simp [FMap.getD]

theorem buildProfile_count (db : Database) (rid : String) :
    (build_preference_profile db rid).evaluation_count
      = (reviewerEvals db rid).length := by
  simp [build_preference_profile]

/-- C2: the aggregator's affinity maps are exactly the weighted sums over
the reviewer's evaluations — each positioned note contributes the full
rating weight regardless of position, each accord contributes weight ×
intensity, the primary family contributes the weight and the subfamily half
the weight into the same single map (so an equal primary family and
subfamily gains 1.5 × weight under that one key), the rating table is
{1:-2, 2:-1, 3:0, 4:+1, 5:+2}, and `evaluation_count` is the number of the
reviewer's evaluations. -/
theorem C2_aggregator (db : Database) (reviewer_id : String) :
    (∀ n, (build_preference_profile db reviewer_id).note_affinities.getD n
        = ((reviewerEvals db reviewer_id).map
            (fun e => RATING_WEIGHTS e.rating * (noteCount e.fragrance n : ℚ))).sum) ∧
    (∀ a, (build_preference_profile db reviewer_id).accord_affinities.getD a
        = ((reviewerEvals db reviewer_id).map
            (fun e => RATING_WEIGHTS e.rating * accordSum e.fragrance a)).sum) ∧
    (∀ k, (build_preference_profile db reviewer_id).family_affinities.getD k
        = ((reviewerEvals db reviewer_id).map
            (fun e => RATING_WEIGHTS e.rating * famCoeff e.fragrance k)).sum) ∧
    (build_preference_profile db reviewer_id).evaluation_count
      = (reviewerEvals db reviewer_id).length ∧
    (RATING_WEIGHTS 1 = -2 ∧ RATING_WEIGHTS 2 = -1 ∧ RATING_WEIGHTS 3 = 0 ∧
      RATING_WEIGHTS 4 = 1 ∧ RATING_WEIGHTS 5 = 2) ∧
    (∀ (f : Fragrance) (k : String) (w : ℚ),
      f.primary_family = k → f.subfamily = k → w * famCoeff f k = 3 / 2 * w) := by
  refine ⟨fun n => buildProfile_note db reviewer_id n,
    fun a => buildProfile_accord db reviewer_id a,
    fun k => buildProfile_family db reviewer_id k,
    buildProfile_count db reviewer_id,
    by norm_num [RATING_WEIGHTS], ?_⟩
  · intro f k w h1 h2
    unfold famCoeff
    rw [if_pos h1, if_pos h2]
    ring

/-- Scenario S1 of the spec: a single five-star rating. -/
def cDbS1 : Database :=
  { evaluations := [⟨"r", 5, ⟨"fA", "A", "B", "fresh", "citrus",
      [⟨⟨"nb", "Bergamot"⟩, "top"⟩], [⟨"citrus", 4 / 5⟩]⟩⟩]
    fragrances := [] }

/-- Witness for C2 on the spec's scenario S1, including the 1.5 × weight
coincidence clause at a fragrance whose primary family equals its
subfamily. -/
theorem C2_aggregator_witness :
    (build_preference_profile cDbS1 "r").note_affinities.getD "nb" = 2 ∧
    (build_preference_profile cDbS1 "r").accord_affinities.getD "citrus" = 8 / 5 ∧
    (build_preference_profile cDbS1 "r").family_affinities.getD "fresh" = 2 ∧
    (build_preference_profile cDbS1 "r").family_affinities.getD "citrus" = 1 ∧
    (2 : ℚ) * famCoeff ⟨"f", "F", "B", "Woody", "Woody", [], []⟩ "Woody" = 3 / 2 * 2 := by
  have h := C2_aggregator cDbS1 "r"
  refine ⟨?_, ?_, ?_, ?_,
    h.2.2.2.2.2 ⟨"f", "F", "B", "Woody", "Woody", [], []⟩ "Woody" 2 rfl rfl⟩
  · rw [h.1 "nb"]
    norm_num [reviewerEvals, cDbS1, noteCount, RATING_WEIGHTS]
  · rw [h.2.1 "citrus"]
    norm_num [reviewerEvals, cDbS1, accordSum, RATING_WEIGHTS]
  · rw [h.2.2.1 "fresh"]
    norm_num [reviewerEvals, cDbS1, famCoeff, RATING_WEIGHTS]
    decide
  · rw [h.2.2.1 "citrus"]
    norm_num [reviewerEvals, cDbS1, famCoeff, RATING_WEIGHTS]
    rw [if_neg (by decide)]
    norm_num

/-- C7 (amended): appending one rating-3 evaluation to a reviewer's
evaluations leaves every affinity value unchanged — every lookup with
missing-key-as-0 is equal — and increases `evaluation_count` by exactly 1;
the key sets of the maps may however gain zero-valued entries, so the dicts
themselves need not be equal. -/
theorem C7_rating3 (db : Database) (r : String) (e : Evaluation)
    (h3 : e.rating = 3) (hr : e.reviewer_id = r) :
    (∀ k, (build_preference_profile
        ⟨db.evaluations ++ [e], db.fragrances⟩ r).note_affinities.getD k
      = (build_preference_profile db r).note_affinities.getD k) ∧
    (∀ k, (build_preference_profile
        ⟨db.evaluations ++ [e], db.fragrances⟩ r).accord_affinities.getD k
      = (build_preference_profile db r).accord_affinities.getD k) ∧
    (∀ k, (build_preference_profile
        ⟨db.evaluations ++ [e], db.fragrances⟩ r).family_affinities.getD k
      = (build_preference_profile db r).family_affinities.getD k) ∧
    (build_preference_profile
        ⟨db.evaluations ++ [e], db.fragrances⟩ r).evaluation_count
      = (build_preference_profile db r).evaluation_count + 1 := by
  have hre : reviewerEvals ⟨db.evaluations ++ [e], db.fragrances⟩ r
      = reviewerEvals db r ++ [e] := by
    simp [reviewerEvals, List.filter_append, hr]
  refine ⟨fun k => ?_, fun k => ?_, fun k => ?_, ?_⟩
  · rw [buildProfile_note, buildProfile_note, hre, List.map_append,
      List.sum_append]
    simp [h3, RATING_WEIGHTS]
  · rw [buildProfile_accord, buildProfile_accord, hre, List.map_append,
      List.sum_append]
    simp [h3, RATING_WEIGHTS]
  · rw [buildProfile_family, buildProfile_family, hre, List.map_append,
      List.sum_append]
    simp [h3, RATING_WEIGHTS]
  · rw [buildProfile_count, buildProfile_count, hre, List.length_append]
    rfl

/-- Witness for C7 at a concrete database and rating-3 evaluation. -/
theorem C7_rating3_witness :
    (build_preference_profile
        ⟨([] : List Evaluation) ++ [⟨"r", 3, ⟨"f1", "F", "B", "Woody", "Chypre",
          [⟨⟨"n1", "Cedar"⟩, "top"⟩], []⟩⟩], []⟩ "r").evaluation_count
      = (build_preference_profile ⟨[], []⟩ "r").evaluation_count + 1 :=
  (C7_rating3 ⟨[], []⟩ "r" ⟨"r", 3, ⟨"f1", "F", "B", "Woody", "Chypre",
    [⟨⟨"n1", "Cedar"⟩, "top"⟩], []⟩⟩ rfl rfl).2.2.2

/-- C7 counterexample: the rating-3 evaluation inserts a zero-valued key
into the (defaultdict) note-affinity map, so the resulting dict is not equal
to the one built without the evaluation. -/
theorem C7_counterexample :
    ¬ (build_preference_profile
        ⟨[⟨"r", 3, ⟨"f1", "F", "B", "Woody", "Chypre",
          [⟨⟨"n1", "Cedar"⟩, "top"⟩], []⟩⟩], []⟩ "r").note_affinities.dictEq
      (build_preference_profile ⟨[], []⟩ "r").note_affinities := by
  intro h
  exact absurd (h "n1") (by decide)

/-! ## Ranker lemmas -/

theorem get_recommendations_error (db : Database) (rid : String) (limit : ℕ)
    (ex : Bool) (h : (reviewerEvals db rid).length < MIN_EVALUATIONS) :
    get_recommendations db rid limit ex
      = .error ⟨"Need at least 3 evaluations for recommendations"⟩ := by
  simp only [get_recommendations]
  rw [if_pos (by rw [buildProfile_count]; exact h)]
  rfl

theorem get_recommendations_ok (db : Database) (rid : String) (limit : ℕ)
    (ex : Bool) (h : MIN_EVALUATIONS ≤ (reviewerEvals db rid).length) :
    get_recommendations db rid limit ex
      = .ok ((pySort recLe (candidateRecommendations db rid ex)).take limit) := by
  simp only [get_recommendations]
  rw [if_neg (by rw [buildProfile_count]; exact not_lt.mpr h)]

/-- C5 (amended): the ranker fails exactly for reviewers with fewer than
`MIN_EVALUATIONS = 3` evaluations, with an error whose message states the
required minimum; the message does not contain the reviewer's current
evaluation count.  With at least 3 evaluations no failure occurs. -/
theorem C5_min_evaluations (db : Database) (rid : String) (limit : ℕ) (ex : Bool) :
    ((reviewerEvals db rid).length < MIN_EVALUATIONS →
      get_recommendations db rid limit ex
        = .error ⟨"Need at least 3 evaluations for recommendations"⟩) ∧
    (MIN_EVALUATIONS ≤ (reviewerEvals db rid).length →
      get_recommendations db rid limit ex
        = .ok ((pySort recLe (candidateRecommendations db rid ex)).take limit)) :=
  ⟨get_recommendations_error db rid limit ex, get_recommendations_ok db rid limit ex⟩

/-- A fragrance with one note, used by the C5 databases. -/
def cFragX : Fragrance :=
  { id := "fx", name := "X", brand := "B", primary_family := "Woody",
    subfamily := "Chypre", notes := [⟨⟨"n1", "Cedar"⟩, "top"⟩], accords := [] }

/-- A database where reviewer r1 has one evaluation and r2 has two. -/
def cDbCounts : Database :=
  { evaluations := [⟨"r1", 5, cFragX⟩, ⟨"r2", 5, cFragX⟩, ⟨"r2", 4, cFragX⟩]
    fragrances := [cFragX] }

/-- C5 counterexample: reviewers with evaluation counts 1 and 2 receive the
identical `InsufficientDataError` — its message names only the required
minimum and contains neither "1" nor "2" — so the error cannot carry the
reviewer's current evaluation count. -/
theorem C5_counterexample :
    get_recommendations cDbCounts "r1" 10 true
      = .error ⟨"Need at least 3 evaluations for recommendations"⟩ ∧
    get_recommendations cDbCounts "r2" 10 true
      = .error ⟨"Need at least 3 evaluations for recommendations"⟩ ∧
    (reviewerEvals cDbCounts "r1").length = 1 ∧
    (reviewerEvals cDbCounts "r2").length = 2 ∧
    pyIn "1" "Need at least 3 evaluations for recommendations" = false ∧
    pyIn "2" "Need at least 3 evaluations for recommendations" = false :=
  ⟨get_recommendations_error cDbCounts "r1" 10 true (by decide),
   get_recommendations_error cDbCounts "r2" 10 true (by decide),
   by decide, by decide, by decide, by decide⟩

/-- Witness for C5 at a reviewer with three evaluations (no failure) and one
with two (failure). -/
theorem C5_min_evaluations_witness :
    get_recommendations
        ⟨[⟨"r", 3, cFragX⟩, ⟨"r", 4, cFragX⟩, ⟨"r", 5, cFragX⟩], [cFragX]⟩
        "r" 10 false
      = .ok ((pySort recLe (candidateRecommendations
          ⟨[⟨"r", 3, cFragX⟩, ⟨"r", 4, cFragX⟩, ⟨"r", 5, cFragX⟩], [cFragX]⟩
          "r" false)).take 10) ∧
    get_recommendations cDbCounts "r2" 10 true
      = .error ⟨"Need at least 3 evaluations for recommendations"⟩ :=
  ⟨(C5_min_evaluations
      ⟨[⟨"r", 3, cFragX⟩, ⟨"r", 4, cFragX⟩, ⟨"r", 5, cFragX⟩], [cFragX]⟩
      "r" 10 false).2 (by decide),
   (C5_min_evaluations cDbCounts "r2" 10 true).1 (by decide)⟩

/-- C10: a reviewer id with no stored evaluations — including an unknown
id — yields a profile with `evaluation_count = 0` and empty affinity maps,
and the ranker fails with the `InsufficientDataError`; the recommendation
path has no reviewer-not-found failure. -/
theorem C10_no_evaluations (db : Database) (rid : String) (limit : ℕ)
    (ex : Bool) (h : reviewerEvals db rid = []) :
    (build_preference_profile db rid).evaluation_count = 0 ∧
    (build_preference_profile db rid).note_affinities = [] ∧
    (build_preference_profile db rid).accord_affinities = [] ∧
    (build_preference_profile db rid).family_affinities = [] ∧
    get_recommendations db rid limit ex
      = .error ⟨"Need at least 3 evaluations for recommendations"⟩ := by
  refine ⟨?_, ?_, ?_, ?_,
    get_recommendations_error db rid limit ex (by rw [h]; decide)⟩
  all_goals
    simp [build_preference_profile, h, pySort]

/-- Witness for C10 at a reviewer id absent from the database. -/
theorem C10_no_evaluations_witness :
    get_recommendations ⟨[⟨"other", 5, cFragX⟩], [cFragX]⟩ "ghost" 10 true
      = .error ⟨"Need at least 3 evaluations for recommendations"⟩ :=
  (C10_no_evaluations ⟨[⟨"other", 5, cFragX⟩], [cFragX]⟩ "ghost" 10 true
    (by decide)).2.2.2.2

/-- C6: with `exclude_rated = true`, no fragrance id the reviewer has
already rated occurs among the returned recommendations, for every limit. -/
theorem C6_exclusion (db : Database) (rid : String) (limit : ℕ)
    (recs : List Recommendation)
    (h : get_recommendations db rid limit true = .ok recs) :
    ∀ rec ∈ recs, rec.fragrance_id ∉ ratedIds db rid := by
  intro rec hrec
  by_cases hc : (build_preference_profile db rid).evaluation_count < MIN_EVALUATIONS
  · simp only [get_recommendations] at h
    rw [if_pos hc] at h
    exact absurd h (by simp)
  · simp only [get_recommendations] at h
    rw [if_neg hc] at h
    have hrecs := (Except.ok.inj h).symm
    subst hrecs
    have h1 : rec ∈ pySort recLe (candidateRecommendations db rid true) :=
      List.take_subset _ _ hrec
    have h2 : rec ∈ candidateRecommendations db rid true := pySort_mem.mp h1
    simp only [candidateRecommendations, if_pos rfl] at h2
    obtain ⟨f, hf, rfl⟩ := List.mem_map.mp h2
    have hcond := (List.mem_filter.mp hf).2
    simp only [decide_eq_true_eq] at hcond
    intro hmem
    exact hcond (List.elem_iff.mpr hmem)

/-- Rated fragrances for the concrete ranker databases. -/
def cFragA : Fragrance :=
  { id := "a", name := "A", brand := "B", primary_family := "W",
    subfamily := "V", notes := [⟨⟨"n1", "Cedar"⟩, "top"⟩], accords := [] }

/-- Second rated fragrance. -/
def cFragB : Fragrance :=
  { id := "b", name := "Bee", brand := "B", primary_family := "W",
    subfamily := "V", notes := [⟨⟨"n2", "Rose"⟩, "heart"⟩], accords := [] }

/-- Third rated fragrance. -/
def cFragC : Fragrance :=
  { id := "c", name := "Cee", brand := "B", primary_family := "W",
    subfamily := "V", notes := [⟨⟨"n3", "Musk"⟩, "base"⟩], accords := [] }

/-- An unrated catalog fragrance. -/
def cUnrated : Fragrance :=
  { id := "u", name := "U", brand := "B", primary_family := "X",
    subfamily := "Y", notes := [], accords := [] }

/-- Database with a fully-evaluated reviewer and one unrated candidate. -/
def cDb6 : Database :=
  { evaluations := [⟨"r", 3, cFragA⟩, ⟨"r", 4, cFragB⟩, ⟨"r", 5, cFragC⟩]
    fragrances := [cFragA, cUnrated] }

/-- Witness for C6: the single returned recommendation is the unrated
candidate, whose id is not among the reviewer's rated ids. -/
theorem C6_exclusion_witness :
    (mkRecommendation (build_preference_profile cDb6 "r") cUnrated).fragrance_id
      ∉ ratedIds cDb6 "r" := by
  have h : get_recommendations cDb6 "r" 10 true
      = .ok [mkRecommendation (build_preference_profile cDb6 "r") cUnrated] := by
    rw [get_recommendations_ok cDb6 "r" 10 true (by decide)]
    rfl
  exact C6_exclusion cDb6 "r" 10 _ h _ (by simp)

/-! ## Sort-comparator lemmas -/

theorem recLe_total (a b : Recommendation) :
    recLe a b = true ∨ recLe b a = true := by
  unfold recLe
  cases ha : a.vetoed <;> cases hb : b.vetoed <;> simp
  all_goals exact le_total _ _

theorem recLe_trans (a b c : Recommendation) (hab : recLe a b = true)
    (hbc : recLe b c = true) : recLe a c = true := by
  unfold recLe at hab hbc ⊢
  cases ha : a.vetoed <;> cases hb : b.vetoed <;> cases hc : c.vetoed <;>
    simp [ha, hb, hc] at hab hbc ⊢ <;>
    exact le_trans hbc hab

/-- The computable comparator agrees with the code's sort key read on the
real-valued stored scores. -/
theorem recLe_iff (a b : Recommendation) :
    recLe a b = true ↔ codeKeyGe a b := by
  unfold recLe codeKeyGe scoreKeyQ Recommendation.match_score
  cases ha : a.vetoed <;> cases hb : b.vetoed <;> simp [ha, hb]
  rw [logistic_le_iff]
  exact Iff.symm Rat.cast_le

/-- C4 (amended): the returned list is the first `limit` elements of the
candidate list stably sorted by the key (vetoed flag ascending, match score
descending) — there is no name or id tie-break, ties keep the candidate
order — and in particular it is pairwise ordered by that key, and the first
`k` elements agree between a `limit = N` and a `limit = M ≥ N ≥ k` call. -/
theorem C4_ranker_order (db : Database) (rid : String) (ex : Bool) :
    (∀ limit recs, get_recommendations db rid limit ex = .ok recs →
      recs.Pairwise codeKeyGe ∧
      recs = (pySort recLe (candidateRecommendations db rid ex)).take limit) ∧
    (∀ k N M recsN recsM, k ≤ N → N ≤ M →
      get_recommendations db rid N ex = .ok recsN →
      get_recommendations db rid M ex = .ok recsM →
      recsN.take k = recsM.take k) := by
  have main : ∀ limit recs, get_recommendations db rid limit ex = .ok recs →
      recs = (pySort recLe (candidateRecommendations db rid ex)).take limit := by
    intro limit recs h
    by_cases hc : (build_preference_profile db rid).evaluation_count < MIN_EVALUATIONS
    · simp only [get_recommendations] at h
      rw [if_pos hc] at h
      exact absurd h (by simp)
    · simp only [get_recommendations] at h
      rw [if_neg hc] at h
      exact (Except.ok.inj h).symm
  refine ⟨fun limit recs h => ⟨?_, main limit recs h⟩,
    fun k N M recsN recsM hkN hNM hN hM => ?_⟩
  · rw [main limit recs h]
    exact List.Pairwise.imp (fun hab => (recLe_iff _ _).mp hab)
      (List.Pairwise.sublist (List.take_sublist _ _)
        (pySort_pairwise recLe_trans recLe_total _))
  · rw [main N recsN hN, main M recsM hM, List.take_take, List.take_take,
      min_eq_left hkN, min_eq_left (le_trans hkN hNM)]

/-- Witness for C4 at a concrete database and limit. -/
theorem C4_ranker_order_witness :
    [mkRecommendation (build_preference_profile cDb6 "r") cUnrated].Pairwise
      codeKeyGe := by
  have h : get_recommendations cDb6 "r" 5 true
      = .ok [mkRecommendation (build_preference_profile cDb6 "r") cUnrated] := by
    rw [get_recommendations_ok cDb6 "r" 5 true (by decide)]
    rfl
  exact ((C4_ranker_order cDb6 "r" true).1 5 _ h).1

/-- A candidate named "Beta", stored before its tie partner in the catalog. -/
def cFragBeta : Fragrance :=
  { id := "fb", name := "Beta", brand := "B", primary_family := "X",
    subfamily := "Y", notes := [], accords := [] }

/-- A candidate named "Alpha", identical to "Beta" for scoring purposes. -/
def cFragAlpha : Fragrance :=
  { id := "fa", name := "Alpha", brand := "B", primary_family := "X",
    subfamily := "Y", notes := [], accords := [] }

/-- Catalog holding the two tied candidates in name-descending order. -/
def cDbTie : Database :=
  { evaluations := [⟨"r", 3, cFragA⟩, ⟨"r", 4, cFragB⟩, ⟨"r", 5, cFragC⟩]
    fragrances := [cFragA, cFragB, cFragC, cFragBeta, cFragAlpha] }

/-- The recommendation scored for "Beta". -/
def cRecBeta : Recommendation :=
  mkRecommendation (build_preference_profile cDbTie "r") cFragBeta

/-- The recommendation scored for "Alpha". -/
def cRecAlpha : Recommendation :=
  mkRecommendation (build_preference_profile cDbTie "r") cFragAlpha

/-- C4 counterexample: two candidates with equal vetoed flags and equal
match scores come back in catalog order ("Beta" before "Alpha"), so the
output is not sorted by the claimed key with its name-ascending tie-break. -/
theorem C4_counterexample :
    get_recommendations cDbTie "r" 10 true = .ok [cRecBeta, cRecAlpha] ∧
    cRecBeta.fragrance_name = "Beta" ∧
    cRecAlpha.fragrance_name = "Alpha" ∧
    cRecBeta.vetoed = cRecAlpha.vetoed ∧
    cRecBeta.match_score = cRecAlpha.match_score ∧
    ¬ claimKeySorted [cRecBeta, cRecAlpha] := by
  have hvB : cRecBeta.vetoed = false := rfl
  have hvA : cRecAlpha.vetoed = false := rfl
  have hraws : cRecBeta.raw = cRecAlpha.raw := rfl
  have hms : cRecBeta.match_score = cRecAlpha.match_score := by
    unfold Recommendation.match_score
    rw [hvB, hvA, hraws]
  have hle : recLe cRecBeta cRecAlpha = true := by
    simp [recLe, scoreKeyQ, hvB, hvA, le_of_eq (congrArg _ hraws.symm)]
    exact le_of_eq hraws.symm
  have hsort : pySort recLe [cRecBeta, cRecAlpha] = [cRecBeta, cRecAlpha] := by
    simp [pySort, pyInsert, hle]
  refine ⟨?_, rfl, rfl, hvB.trans hvA.symm, hms, ?_⟩
  · rw [get_recommendations_ok cDbTie "r" 10 true (by decide),
      show candidateRecommendations cDbTie "r" true = [cRecBeta, cRecAlpha]
        from rfl, hsort]
    rfl
  · intro hsorted
    have hpair : claimKeyLe cRecBeta cRecAlpha :=
      (List.pairwise_cons.mp hsorted).1 cRecAlpha (by simp)
    rcases hpair with ⟨h1, h2⟩ | ⟨h1, h2⟩ | ⟨h1, h2, h3⟩
    · rw [hvA] at h2
      exact absurd h2 (by simp)
    · rw [hms] at h2
      exact absurd h2 (lt_irrefl _)
    · rcases h3 with h4 | ⟨h4, h5⟩
      · exact absurd h4 (by decide)
      · exact absurd h4 (by decide)

/-! ## Explanation adapter theorems -/

/-- C8 (code bug): an entry stored under the real cache key
`md5("rec:f1:user-1")` survives `invalidate_reviewer_cache("user-1")`,
because the reviewer id is substring-tested against the MD5 hex digest and a
reviewer id containing non-hex characters can never occur in it. -/
theorem C8_invalidate_misses_hashed_keys :
    invalidate_reviewer_cache
        [(cache_key "rec" ["f1", "user-1"], "cached explanation")] "user-1"
      = [(cache_key "rec" ["f1", "user-1"], "cached explanation")] ∧
    pyIn "user-1" (cache_key "rec" ["f1", "user-1"]) = false ∧
    cache_key "rec" ["f1", "user-1"] = "8a8a429771672efdd813e9ce83a2aa6b" :=
  ⟨by decide, by decide, by decide⟩

/-- C9 (amended): with a disabled or unconfigured service both explanation
operations return the rule-based fallback; when the external call fails in
any way the transport layer converts to `LLMServiceError` (request error,
HTTP status error, JSON decode error, or a `KeyError`/`IndexError` while
extracting the completion) the failure is caught and converted to the
fallback with `error` populated; but a failure the `except` does not cover
— the `TypeError`/`AttributeError` raised on a valid-JSON non-object body
or a null content — propagates out of both operations to the caller. -/
theorem C9_explanation_adapter (svc : LLMService)
    (oracle : String → CallOutcome) (recommendation : Recommendation)
    (profile : UserProfile) (details : FragranceDetails)
    (reviewer_name : String) :
    (svc.enabled = false →
      generate_recommendation_explanation svc oracle recommendation profile
          details
        = .ok (fallback_recommendation_explanation recommendation profile
            details, svc) ∧
      generate_profile_summary svc oracle profile reviewer_name
        = .ok (fallback_profile_summary profile reviewer_name, svc)) ∧
    (∀ e, (∀ p, call_openrouter (oracle p) = .error (.llmServiceError e)) →
      svc.enabled = true →
      svc.cache.lookup? (cache_key "rec"
          [recommendation.fragrance_id, profile.reviewer_id]) = none →
      generate_recommendation_explanation svc oracle recommendation profile
          details
        = .ok ({ fallback_recommendation_explanation recommendation profile
            details with error := some e }, svc)) ∧
    (∀ e, (∀ p, call_openrouter (oracle p) = .error (.llmServiceError e)) →
      svc.enabled = true →
      svc.cache.lookup? (cache_key "profile" [profile.reviewer_id]) = none →
      generate_profile_summary svc oracle profile reviewer_name
        = .ok ({ fallback_profile_summary profile reviewer_name
            with error := some e }, svc)) ∧
    (∀ err, (∀ p, call_openrouter (oracle p) = .error err) →
      (∀ msg, err ≠ .llmServiceError msg) →
      svc.enabled = true →
      svc.cache.lookup? (cache_key "rec"
          [recommendation.fragrance_id, profile.reviewer_id]) = none →
      generate_recommendation_explanation svc oracle recommendation profile
          details
        = .error err) ∧
    (∀ err, (∀ p, call_openrouter (oracle p) = .error err) →
      (∀ msg, err ≠ .llmServiceError msg) →
      svc.enabled = true →
      svc.cache.lookup? (cache_key "profile" [profile.reviewer_id]) = none →
      generate_profile_summary svc oracle profile reviewer_name
        = .error err) := by
  refine ⟨fun hdis => ?_, fun e ho hen hmiss => ?_, fun e ho hen hmiss => ?_,
    fun err ho hne hen hmiss => ?_, fun err ho hne hen hmiss => ?_⟩
  · constructor <;>
      simp [generate_recommendation_explanation, generate_profile_summary, hdis]
  · simp [generate_recommendation_explanation, hen, hmiss, ho]
  · simp [generate_profile_summary, hen, hmiss, ho]
  · cases err with
    | llmServiceError msg => exact absurd rfl (hne msg)
    | typeError => simp [generate_recommendation_explanation, hen, hmiss, ho]
    | attributeError =>
        simp [generate_recommendation_explanation, hen, hmiss, ho]
  · cases err with
    | llmServiceError msg => exact absurd rfl (hne msg)
    | typeError => simp [generate_profile_summary, hen, hmiss, ho]
    | attributeError => simp [generate_profile_summary, hen, hmiss, ho]

/-- Witness for C9 at concrete inputs: a transport failure is converted into
the fallback with the error populated, and a disabled service returns the
plain fallback. -/
theorem C9_explanation_adapter_witness :
    generate_profile_summary ⟨true, "m", []⟩ (fun _ => .requestError "boom")
        cProfileEmpty "Ann"
      = .ok ({ fallback_profile_summary cProfileEmpty "Ann"
          with error := some "OpenRouter request failed: boom" },
          ⟨true, "m", []⟩) ∧
    generate_profile_summary ⟨false, "m", []⟩ (fun _ => .requestError "boom")
        cProfileEmpty "Ann"
      = .ok (fallback_profile_summary cProfileEmpty "Ann", ⟨false, "m", []⟩) :=
  ⟨(C9_explanation_adapter ⟨true, "m", []⟩ (fun _ => .requestError "boom")
      ⟨"f", "F", "B", false, none, [], 0⟩ cProfileEmpty
      ⟨"N", "B", "X", "Y", [], [], [], []⟩ "Ann").2.2.1
      "OpenRouter request failed: boom" (fun _ => rfl) rfl rfl,
   ((C9_explanation_adapter ⟨false, "m", []⟩ (fun _ => .requestError "boom")
      ⟨"f", "F", "B", false, none, [], 0⟩ cProfileEmpty
      ⟨"N", "B", "X", "Y", [], [], [], []⟩ "Ann").1 rfl).2⟩

/-- C9 counterexample: the claim's "never raises / failures never
propagate" is false — a syntactically valid JSON array body makes the
extraction raise an uncaught `TypeError`, and a null `content` an uncaught
`AttributeError`; both escape `generate_profile_summary` instead of
becoming a fallback response. -/
theorem C9_counterexample :
    generate_profile_summary ⟨true, "m", []⟩ (fun _ => .body (.jarr []))
        cProfileEmpty "Ann"
      = .error .typeError ∧
    generate_profile_summary ⟨true, "m", []⟩
        (fun _ => .body (.jobj [("choices",
          .jarr [.jobj [("message", .jobj [("content", .jnull)])]])]))
        cProfileEmpty "Ann"
      = .error .attributeError :=
  ⟨rfl, rfl⟩

end FragranceRater
